import Mathlib

/- Shallow embedding of the StockSense analytics core (src/app.py):
   the query categorizer, the ingestion of chat messages and user actions
   into the event store, the clear-chat operation, and the aggregation
   queries behind the analytics endpoints. Timestamps are modelled as
   seconds (Nat); a calendar date is the day index timestamp / 86400. -/

namespace StockSense

/- Python substring containment, needle in haystack, over the character
   lists of the strings. -/
def listContains (needle : List Char) : List Char → Bool
  | [] => needle.isEmpty
  | c :: cs => needle.isPrefixOf (c :: cs) || listContains needle cs

def containsSub (needle haystack : String) : Bool :=
  listContains needle.data haystack.data

/- Python str.lower, mapping Char.toLower over the characters. -/
def lower (s : String) : String := String.mk (s.data.map Char.toLower)

def inventory_keywords : List String :=
  ["inventory", "stock", "low stock", "reorder", "shortage", "order"]

def purchase_keywords : List String :=
  ["purchase", "buy", "supplier", "vendor", "requisition"]

def report_keywords : List String :=
  ["report", "analytics", "data", "show", "list"]

/- any(keyword in message_lower for keyword in keywords) -/
def kwMatch (keywords : List String) (message_lower : String) : Bool :=
  keywords.any (fun keyword => containsSub keyword message_lower)

/- categorize_query from src/app.py lines 84..99. -/
def categorize_query (user_message : String) : String :=
  let message_lower := lower user_message
  if kwMatch inventory_keywords message_lower then "inventory"
  else if kwMatch purchase_keywords message_lower then "purchase"
  else if kwMatch report_keywords message_lower then "reporting"
  else "general"

/- Rows of the chat_sessions table. -/
structure SessionRow where
  session_id : String
  created_at : Nat
deriving DecidableEq

/- Rows of the chat_messages table. -/
structure ChatMessage where
  session_id : String
  user_message : String
  bot_response : String
  message_type : String
  intent : String
  query_category : String
  has_requisition_offer : Bool
  requisition_created : Bool
  timestamp : Nat
deriving DecidableEq

/- Rows of the user_actions table. -/
structure UserAction where
  session_id : String
  action_type : String
  action_details : String
  timestamp : Nat
deriving DecidableEq

/- The whole SQLite store: the three tables, rows in insertion order. -/
structure Store where
  chat_sessions : List SessionRow
  chat_messages : List ChatMessage
  user_actions : List UserAction
deriving DecidableEq

def sessionIds (store : Store) : List String :=
  store.chat_sessions.map SessionRow.session_id

/- log_chat_message from src/app.py lines 101..122: INSERT OR IGNORE the
   session row, derive category and requisition flags, append the message.
   The server-assigned timestamp of the call is t. -/
def log_chat_message (store : Store) (session_id user_message bot_response intent : String)
    (t : Nat) : Store :=
  let chat_sessions :=
    if session_id ∈ sessionIds store then store.chat_sessions
    else store.chat_sessions ++ [{ session_id := session_id, created_at := t }]
  let query_category := categorize_query user_message
  let has_requisition_offer :=
    containsSub "Would you like me to create purchase requisitions" bot_response
  let requisition_created := containsSub "Requisition Created" bot_response
  { store with
    chat_sessions := chat_sessions,
    chat_messages := store.chat_messages ++
      [{ session_id := session_id, user_message := user_message, bot_response := bot_response,
         message_type := "chat", intent := intent, query_category := query_category,
         has_requisition_offer := has_requisition_offer,
         requisition_created := requisition_created, timestamp := t }] }

/- log_user_action from src/app.py lines 124..135. -/
def log_user_action (store : Store) (session_id action_type action_details : String)
    (t : Nat) : Store :=
  { store with
    user_actions := store.user_actions ++
      [{ session_id := session_id, action_type := action_type,
         action_details := action_details, timestamp := t }] }

/- clear_chat from src/app.py lines 368..382: DELETE FROM chat_messages
   WHERE session_id = ?. -/
def clear_chat (store : Store) (session_id : String) : Store :=
  { store with
    chat_messages := store.chat_messages.filter (fun m => ¬ m.session_id = session_id) }

/- The four counters of /api/analytics/overview, src/app.py lines 256..287. -/
structure Overview where
  total_queries : Nat
  queries_today : Nat
  total_requisitions : Nat
  active_sessions : Nat
deriving DecidableEq

def dateOf (t : Nat) : Nat := t / 86400

/- analytics_overview, src/app.py lines 256..287. now is the server time of
   the call; DATE(timestamp) = DATE(now) becomes equality of day indices and
   timestamp > datetime(now, -24 hours) becomes now - 86400 < timestamp. -/
def analytics_overview (store : Store) (now : Nat) : Overview :=
  { total_queries := store.chat_messages.length,
    queries_today :=
      (store.chat_messages.filter (fun m => dateOf m.timestamp = dateOf now)).length,
    total_requisitions :=
      (store.chat_messages.filter (fun m => m.requisition_created)).length,
    active_sessions :=
      (((store.chat_messages.filter (fun m => now - 86400 < m.timestamp)).map
        (fun m => m.session_id)).dedup).length }

/- A sequence of record_message calls for one session id, applied in order;
   each call carries (user_message, bot_response, intent, timestamp). -/
def applyLogs (store : Store) (sid : String) :
    List (String × String × String × Nat) → Store
  | [] => store
  | (u, b, i, t) :: rest => applyLogs (log_chat_message store sid u b i t) sid rest

def sampleMessage (sid u : String) (t : Nat) : ChatMessage :=
  { session_id := sid, user_message := u, bot_response := "ok", message_type := "chat",
    intent := "normal_query", query_category := categorize_query u,
    has_requisition_offer := false, requisition_created := false, timestamp := t }

def sampleStore : Store :=
  { chat_sessions := [{ session_id := "s1", created_at := 0 },
                      { session_id := "s2", created_at := 1 }],
    chat_messages := [sampleMessage "s1" "check stock levels" 0,
                      sampleMessage "s2" "show report" 1],
    user_actions := [{ session_id := "s1", action_type := "message_sent",
                       action_details := "Query: check stock levels...", timestamp := 0 }] }

/- GROUP BY date with ORDER BY date ascending: insertion into a strictly
   ascending list of day indices, dropping duplicates. -/
def sortedInsert (d : Nat) : List Nat → List Nat
  | [] => [d]
  | x :: xs =>
    if d < x then d :: x :: xs
    else if d = x then x :: xs
    else x :: sortedInsert d xs

def sortedDates (l : List Nat) : List Nat := l.foldr sortedInsert []

/- daily_activity, src/app.py lines 312..327: Message events of the trailing
   30 days grouped by calendar date, ascending, with per-date counts. -/
def daily_activity (store : Store) (now : Nat) : List (Nat × Nat) :=
  let window := store.chat_messages.filter (fun m => now - 30 * 86400 < m.timestamp)
  (sortedDates (window.map (fun m => dateOf m.timestamp))).map
    (fun d => (d, (window.filter (fun m => dateOf m.timestamp = d)).length))

/- ORDER BY count DESC: insertion sort, descending on the count component. -/
def insertDesc (p : String × Nat) : List (String × Nat) → List (String × Nat)
  | [] => [p]
  | q :: qs => if q.2 < p.2 then p :: q :: qs else q :: insertDesc p qs

def sortByCountDesc (l : List (String × Nat)) : List (String × Nat) := l.foldr insertDesc []

/- top_queries, src/app.py lines 384..401: GROUP BY user_message,
   ORDER BY count DESC, LIMIT limit, then the Python truncation
   row[:100] + ellipsis for texts longer than 100 characters. -/
def top_queries (store : Store) (limit : Nat) : List (String × Nat) :=
  let grouped := ((store.chat_messages.map (fun m => m.user_message)).dedup).map
    (fun q => (q, (store.chat_messages.filter (fun m => m.user_message = q)).length))
  ((sortByCountDesc grouped).take limit).map
    (fun p => (if 100 < p.1.data.length then String.mk (p.1.data.take 100) ++ "..." else p.1,
               p.2))

theorem log_chat_message_chat_messages (store : Store) (sid u b i : String) (t : Nat) :
    (log_chat_message store sid u b i t).chat_messages =
      store.chat_messages ++
        [{ session_id := sid, user_message := u, bot_response := b,
           message_type := "chat", intent := i, query_category := categorize_query u,
           has_requisition_offer :=
             containsSub "Would you like me to create purchase requisitions" b,
           requisition_created := containsSub "Requisition Created" b, timestamp := t }] := rfl

theorem log_chat_message_chat_sessions (store : Store) (sid u b i : String) (t : Nat) :
    (log_chat_message store sid u b i t).chat_sessions =
      if sid ∈ sessionIds store then store.chat_sessions
      else store.chat_sessions ++ [{ session_id := sid, created_at := t }] := rfl

theorem log_chat_message_user_actions (store : Store) (sid u b i : String) (t : Nat) :
    (log_chat_message store sid u b i t).user_actions = store.user_actions := rfl

/-- Claim C1: every message containing inventory or stock (case-insensitively,
at any position) is categorized as inventory, even in the presence of keywords
of later rules; the rule list is evaluated in the fixed order inventory,
purchase, reporting, general, first match wins. -/
theorem c1_categorize_first_match :
    (∀ msg : String,
      containsSub "inventory" (lower msg) = true ∨ containsSub "stock" (lower msg) = true →
      categorize_query msg = "inventory") ∧
    (∀ msg : String, kwMatch inventory_keywords (lower msg) = true →
      categorize_query msg = "inventory") ∧
    (∀ msg : String, kwMatch inventory_keywords (lower msg) = false →
      kwMatch purchase_keywords (lower msg) = true →
      categorize_query msg = "purchase") ∧
    (∀ msg : String, kwMatch inventory_keywords (lower msg) = false →
      kwMatch purchase_keywords (lower msg) = false →
      kwMatch report_keywords (lower msg) = true →
      categorize_query msg = "reporting") ∧
    (∀ msg : String, kwMatch inventory_keywords (lower msg) = false →
      kwMatch purchase_keywords (lower msg) = false →
      kwMatch report_keywords (lower msg) = false →
      categorize_query msg = "general") := by
  refine ⟨?_, ?_, ?_, ?_, ?_⟩
  · intro msg h
    have hm : kwMatch inventory_keywords (lower msg) = true := by
      unfold kwMatch
      rw [List.any_eq_true]
      rcases h with h | h
      · exact ⟨"inventory", by simp [inventory_keywords], h⟩
      · exact ⟨"stock", by simp [inventory_keywords], h⟩
    simp [categorize_query, hm]
  · intro msg hm
    simp [categorize_query, hm]
  · intro msg h1 h2
    simp [categorize_query, h1, h2]
  · intro msg h1 h2 h3
    simp [categorize_query, h1, h2, h3]
  · intro msg h1 h2 h3
    simp [categorize_query, h1, h2, h3]

theorem c1_witness :
    categorize_query "Show me the stock report" = "inventory" :=
  c1_categorize_first_match.1 "Show me the stock report" (Or.inr (by decide))

/-- Claim C2: recording the stock-check exchange bumps total_queries by one and
the appended Message event has category inventory, a requisition offer and no
created requisition; a follow-up exchange whose bot response confirms
Requisition Created bumps total_requisitions by one. -/
theorem c2_round_trip (store : Store) (sid : String) (t1 t2 now : Nat) :
    ((analytics_overview (log_chat_message store sid "check stock levels"
        "Low stock detected. Would you like me to create purchase requisitions?"
        "normal_query" t1) now).total_queries
      = (analytics_overview store now).total_queries + 1) ∧
    (((log_chat_message store sid "check stock levels"
        "Low stock detected. Would you like me to create purchase requisitions?"
        "normal_query" t1).chat_messages.getLast?).map ChatMessage.query_category
      = some "inventory") ∧
    (((log_chat_message store sid "check stock levels"
        "Low stock detected. Would you like me to create purchase requisitions?"
        "normal_query" t1).chat_messages.getLast?).map ChatMessage.has_requisition_offer
      = some true) ∧
    (((log_chat_message store sid "check stock levels"
        "Low stock detected. Would you like me to create purchase requisitions?"
        "normal_query" t1).chat_messages.getLast?).map ChatMessage.requisition_created
      = some false) ∧
    ((analytics_overview (log_chat_message (log_chat_message store sid "check stock levels"
        "Low stock detected. Would you like me to create purchase requisitions?"
        "normal_query" t1) sid "yes" "Requisition Created for item X" "normal_query" t2)
        now).total_requisitions
      = (analytics_overview (log_chat_message store sid "check stock levels"
        "Low stock detected. Would you like me to create purchase requisitions?"
        "normal_query" t1) now).total_requisitions + 1) := by
  have hcat : categorize_query "check stock levels" = "inventory" := by decide
  have hoffer : containsSub "Would you like me to create purchase requisitions"
      "Low stock detected. Would you like me to create purchase requisitions?" = true := by
    decide
  have hnotcreated : containsSub "Requisition Created"
      "Low stock detected. Would you like me to create purchase requisitions?" = false := by
    decide
  have hcreated : containsSub "Requisition Created" "Requisition Created for item X"
      = true := by decide
  refine ⟨?_, ?_, ?_, ?_, ?_⟩
  · simp [analytics_overview, log_chat_message_chat_messages]
  · rw [log_chat_message_chat_messages, List.getLast?_concat]
    simp [hcat]
  · rw [log_chat_message_chat_messages, List.getLast?_concat]
    simp [hoffer]
  · rw [log_chat_message_chat_messages, List.getLast?_concat]
    simp [hnotcreated]
  · simp [analytics_overview, log_chat_message_chat_messages, List.filter_append,
      hnotcreated, hcreated]

/-- Claim C8 counterexample: a record_message call whose session_id and
user_message are both missing (empty) is not rejected: starting from the empty
store it persists one Session row and one Message event. -/
theorem c8_counterexample :
    ((log_chat_message { chat_sessions := [], chat_messages := [], user_actions := [] }
        "" "" "some response" "normal_query" 0).chat_messages.length = 1) ∧
    ((log_chat_message { chat_sessions := [], chat_messages := [], user_actions := [] }
        "" "" "some response" "normal_query" 0).chat_sessions.length = 1) := by
  constructor <;> rfl

/-- Claim C8 amended: record_message performs no input validation: a call with
missing (empty) session_id and user_message succeeds like any other call,
appending one Message event and ensuring a Session row for the empty id; no
InvalidInput rejection exists in the code. -/
theorem c8_no_validation (store : Store) (b i : String) (t : Nat) :
    ((log_chat_message store "" "" b i t).chat_messages.length
      = store.chat_messages.length + 1) ∧
    "" ∈ sessionIds (log_chat_message store "" "" b i t) := by
  constructor
  · simp [log_chat_message_chat_messages]
  · unfold sessionIds
    rw [log_chat_message_chat_sessions]
    by_cases h : "" ∈ sessionIds store
    · rw [if_pos h]; exact h
    · rw [if_neg h]; simp

/-- Claim C9: the requisition flags of the appended Message event are derived
by exact-case substring containment on the bot response, unlike the
case-insensitive categorizer; a differently-cased variant such as
"requisition created" does not set requisition_created. -/
theorem c9_flags_case_sensitive (store : Store) (sid u b i : String) (t : Nat) :
    (((log_chat_message store sid u b i t).chat_messages.getLast?).map
        ChatMessage.has_requisition_offer
      = some (containsSub "Would you like me to create purchase requisitions" b)) ∧
    (((log_chat_message store sid u b i t).chat_messages.getLast?).map
        ChatMessage.requisition_created
      = some (containsSub "Requisition Created" b)) ∧
    containsSub "Requisition Created" "requisition created for item X" = false ∧
    containsSub "requisition created" "requisition created for item X" = true := by
  refine ⟨?_, ?_, by decide, by decide⟩ <;>
    rw [log_chat_message_chat_messages, List.getLast?_concat] <;> rfl

theorem mem_sessionIds_log (store : Store) (sid u b i : String) (t : Nat) :
    sid ∈ sessionIds (log_chat_message store sid u b i t) := by
  unfold sessionIds
  rw [log_chat_message_chat_sessions]
  by_cases h : sid ∈ sessionIds store
  · rw [if_pos h]; exact h
  · rw [if_neg h]; simp

theorem log_chat_sessions_of_mem (store : Store) (sid u b i : String) (t : Nat)
    (h : sid ∈ sessionIds store) :
    (log_chat_message store sid u b i t).chat_sessions = store.chat_sessions := by
  rw [log_chat_message_chat_sessions, if_pos h]

theorem sessionIds_log_of_not_mem (store : Store) (sid u b i : String) (t : Nat)
    (h : sid ∉ sessionIds store) :
    sessionIds (log_chat_message store sid u b i t) = sessionIds store ++ [sid] := by
  unfold sessionIds
  rw [log_chat_message_chat_sessions, if_neg h, List.map_append]
  rfl

theorem applyLogs_chat_sessions_of_mem {sid : String}
    (calls : List (String × String × String × Nat)) (store : Store)
    (h : sid ∈ sessionIds store) :
    (applyLogs store sid calls).chat_sessions = store.chat_sessions := by
  induction calls generalizing store with
  | nil => rfl
  | cons c rest ih =>
      obtain ⟨u, b, i, t⟩ := c
      have hsess := log_chat_sessions_of_mem store sid u b i t h
      have hmem : sid ∈ sessionIds (log_chat_message store sid u b i t) := by
        unfold sessionIds
        rw [hsess]
        exact h
      calc (applyLogs (log_chat_message store sid u b i t) sid rest).chat_sessions
          = (log_chat_message store sid u b i t).chat_sessions := ih _ hmem
        _ = store.chat_sessions := hsess

/-- Claim C4: session creation is idempotent: starting from a store where the
session id is unseen, any nonempty sequence of record_message calls for it
leaves exactly one Session row with that id, and a duplicate insert on a
second call leaves the session table unchanged rather than erroring or
duplicating. -/
theorem c4_session_idempotent (store : Store) (sid : String)
    (calls : List (String × String × String × Nat))
    (h : (sessionIds store).count sid = 0) (hc : calls ≠ []) :
    (sessionIds (applyLogs store sid calls)).count sid = 1 ∧
    (∀ u b i : String, ∀ t : Nat, ∀ u' b' i' : String, ∀ t' : Nat,
      (log_chat_message (log_chat_message store sid u b i t) sid u' b' i' t').chat_sessions
        = (log_chat_message store sid u b i t).chat_sessions) := by
  have hnot : sid ∉ sessionIds store := List.count_eq_zero.mp h
  constructor
  · obtain ⟨c, rest, rfl⟩ := List.exists_cons_of_ne_nil hc
    obtain ⟨u, b, i, t⟩ := c
    have hids := sessionIds_log_of_not_mem store sid u b i t hnot
    have hmem : sid ∈ sessionIds (log_chat_message store sid u b i t) := by
      rw [hids]; simp
    have hrest : sessionIds (applyLogs (log_chat_message store sid u b i t) sid rest)
        = sessionIds (log_chat_message store sid u b i t) := by
      unfold sessionIds
      rw [applyLogs_chat_sessions_of_mem rest _ hmem]
    show (sessionIds (applyLogs (log_chat_message store sid u b i t) sid rest)).count sid = 1
    rw [hrest, hids, List.count_append, h, List.count_singleton_self]
  · intro u b i t u' b' i' t'
    exact log_chat_sessions_of_mem _ sid u' b' i' t' (mem_sessionIds_log store sid u b i t)

theorem c4_witness :
    (sessionIds (applyLogs { chat_sessions := [], chat_messages := [], user_actions := [] }
      "s1" [("check stock levels", "ok", "normal_query", 0),
            ("check stock levels", "ok", "normal_query", 5)])).count "s1" = 1 :=
  (c4_session_idempotent { chat_sessions := [], chat_messages := [], user_actions := [] }
    "s1" [("check stock levels", "ok", "normal_query", 0),
          ("check stock levels", "ok", "normal_query", 5)] (by decide) (by decide)).1

/-- Claim C5: clear_chat deletes exactly the Message events of the given
session id: those disappear, Message events of other ids keep their
multiplicity, the Session rows and User action events are untouched, a call
on a store with no messages for the id is a no-op rather than an error, and a
second call changes nothing. -/
theorem c5_clear_chat (store : Store) (sid : String) :
    (∀ m : ChatMessage, m.session_id = sid →
      (clear_chat store sid).chat_messages.count m = 0) ∧
    (∀ m : ChatMessage, ¬ m.session_id = sid →
      (clear_chat store sid).chat_messages.count m = store.chat_messages.count m) ∧
    (clear_chat store sid).chat_sessions = store.chat_sessions ∧
    (clear_chat store sid).user_actions = store.user_actions ∧
    ((∀ m ∈ store.chat_messages, ¬ m.session_id = sid) → clear_chat store sid = store) ∧
    clear_chat (clear_chat store sid) sid = clear_chat store sid := by
  refine ⟨?_, ?_, rfl, rfl, ?_, ?_⟩
  · intro m hm
    apply List.count_eq_zero_of_not_mem
    intro hmem
    have := (List.mem_filter.mp hmem).2
    simp [hm] at this
  · intro m hm
    apply List.count_filter
    simpa using hm
  · intro hall
    have hfix : store.chat_messages.filter (fun m => ¬ m.session_id = sid)
        = store.chat_messages := by
      apply List.filter_eq_self.mpr
      intro a ha
      simpa using hall a ha
    show { store with
        chat_messages := store.chat_messages.filter (fun m => ¬ m.session_id = sid) } = store
    rw [hfix]
  · show { store with chat_messages :=
        ((store.chat_messages.filter (fun m => ¬ m.session_id = sid)).filter
          (fun m => ¬ m.session_id = sid)) } = clear_chat store sid
    have hfix : ((store.chat_messages.filter (fun m => ¬ m.session_id = sid)).filter
        (fun m => ¬ m.session_id = sid))
        = store.chat_messages.filter (fun m => ¬ m.session_id = sid) := by
      apply List.filter_eq_self.mpr
      intro a ha
      exact (List.mem_filter.mp ha).2
    rw [hfix]
    rfl

theorem c5_witness :
    (clear_chat sampleStore "s1").chat_messages.count
        (sampleMessage "s1" "check stock levels" 0) = 0 ∧
    (clear_chat sampleStore "s1").chat_messages.count (sampleMessage "s2" "show report" 1)
      = sampleStore.chat_messages.count (sampleMessage "s2" "show report" 1) ∧
    (clear_chat sampleStore "s1").user_actions = sampleStore.user_actions :=
  ⟨(c5_clear_chat sampleStore "s1").1 _ rfl,
   (c5_clear_chat sampleStore "s1").2.1 _ (by decide),
   (c5_clear_chat sampleStore "s1").2.2.2.1⟩

theorem mem_sortedInsert (d y : Nat) (l : List Nat) :
    y ∈ sortedInsert d l ↔ y = d ∨ y ∈ l := by
  induction l with
  | nil => simp [sortedInsert]
  | cons x xs ih =>
      unfold sortedInsert
      by_cases h1 : d < x
      · rw [if_pos h1]
        simp only [List.mem_cons]
      · rw [if_neg h1]
        by_cases h2 : d = x
        · rw [if_pos h2]
          subst h2
          simp only [List.mem_cons]
          tauto
        · rw [if_neg h2]
          simp only [List.mem_cons, ih]
          tauto

theorem sorted_sortedInsert (d : Nat) (l : List Nat)
    (h : List.Sorted (· < ·) l) : List.Sorted (· < ·) (sortedInsert d l) := by
  induction l with
  | nil => simp [sortedInsert]
  | cons x xs ih =>
      obtain ⟨hx, hxs⟩ := List.sorted_cons.mp h
      unfold sortedInsert
      by_cases h1 : d < x
      · rw [if_pos h1]
        refine List.sorted_cons.mpr ⟨?_, h⟩
        intro b hb
        rcases List.mem_cons.mp hb with rfl | hb
        · exact h1
        · exact lt_trans h1 (hx b hb)
      · rw [if_neg h1]
        by_cases h2 : d = x
        · rw [if_pos h2]
          exact h
        · rw [if_neg h2]
          refine List.sorted_cons.mpr ⟨?_, ih hxs⟩
          intro b hb
          rcases (mem_sortedInsert d b xs).mp hb with rfl | hb
          · exact lt_of_le_of_ne (Nat.not_lt.mp h1) (Ne.symm h2)
          · exact hx b hb

theorem mem_sortedDates (l : List Nat) (y : Nat) : y ∈ sortedDates l ↔ y ∈ l := by
  induction l with
  | nil => simp [sortedDates]
  | cons x xs ih =>
      show y ∈ sortedInsert x (sortedDates xs) ↔ _
      rw [mem_sortedInsert, ih, List.mem_cons]

theorem sorted_sortedDates (l : List Nat) : List.Sorted (· < ·) (sortedDates l) := by
  induction l with
  | nil => simp [sortedDates]
  | cons x xs ih => exact sorted_sortedInsert x _ ih

theorem mem_insertDesc (p q : String × Nat) (l : List (String × Nat)) :
    q ∈ insertDesc p l ↔ q = p ∨ q ∈ l := by
  induction l with
  | nil => simp [insertDesc]
  | cons r rs ih =>
      unfold insertDesc
      by_cases h : r.2 < p.2
      · rw [if_pos h]
        simp only [List.mem_cons]
      · rw [if_neg h]
        simp only [List.mem_cons, ih]
        tauto

theorem sorted_insertDesc (p : String × Nat) (l : List (String × Nat))
    (h : List.Sorted (fun a b : String × Nat => b.2 ≤ a.2) l) :
    List.Sorted (fun a b : String × Nat => b.2 ≤ a.2) (insertDesc p l) := by
  induction l with
  | nil => simp [insertDesc]
  | cons r rs ih =>
      obtain ⟨hr, hrs⟩ := List.sorted_cons.mp h
      unfold insertDesc
      by_cases hcmp : r.2 < p.2
      · rw [if_pos hcmp]
        refine List.sorted_cons.mpr ⟨?_, h⟩
        intro b hb
        rcases List.mem_cons.mp hb with rfl | hb
        · exact Nat.le_of_lt hcmp
        · exact Nat.le_trans (hr b hb) (Nat.le_of_lt hcmp)
      · rw [if_neg hcmp]
        refine List.sorted_cons.mpr ⟨?_, ih hrs⟩
        intro b hb
        rcases (mem_insertDesc p b rs).mp hb with rfl | hb
        · exact Nat.not_lt.mp hcmp
        · exact hr b hb

theorem mem_sortByCountDesc (l : List (String × Nat)) (q : String × Nat) :
    q ∈ sortByCountDesc l ↔ q ∈ l := by
  induction l with
  | nil => simp [sortByCountDesc]
  | cons r rs ih =>
      show q ∈ insertDesc r (sortByCountDesc rs) ↔ _
      rw [mem_insertDesc, ih, List.mem_cons]

theorem sorted_sortByCountDesc (l : List (String × Nat)) :
    List.Sorted (fun a b : String × Nat => b.2 ≤ a.2) (sortByCountDesc l) := by
  induction l with
  | nil => simp [sortByCountDesc]
  | cons r rs ih => exact sorted_insertDesc r _ ih

theorem mem_take_or_le (n : Nat) {s : List (String × Nat)} {x : String × Nat}
    (hsort : List.Pairwise (fun a b : String × Nat => b.2 ≤ a.2) s)
    (hx : x ∈ s) :
    x ∈ List.take n s ∨ (n ≤ s.length ∧ ∀ p ∈ List.take n s, x.2 ≤ p.2) := by
  by_cases hmem : x ∈ List.take n s
  · left
    exact hmem
  · right
    have hlen : n ≤ s.length := by
      by_contra hlt
      rw [Nat.not_le] at hlt
      rw [List.take_of_length_le (Nat.le_of_lt hlt)] at hmem
      exact hmem hx
    refine ⟨hlen, ?_⟩
    intro p hp
    have hdrop : x ∈ List.drop n s := by
      have hx' : x ∈ List.take n s ++ List.drop n s := by
        rw [List.take_append_drop]
        exact hx
      rcases List.mem_append.mp hx' with h | h
      · exact absurd h hmem
      · exact h
    have hpw : List.Pairwise (fun a b : String × Nat => b.2 ≤ a.2)
        (List.take n s ++ List.drop n s) := by
      rw [List.take_append_drop]
      exact hsort
    exact (List.pairwise_append.mp hpw).2.2 p hp x hdrop

/-- Claim C6: top_queries groups Message events by exact user_message text,
orders the groups by count descending, returns at most limit entries, and
each returned text is the original when at most 100 characters, or its first
100 characters with an ellipsis appended when longer; every user_message
group appears unless it is cut by the limit, in which case the result is full
and holds only groups of at least its count. -/
theorem c6_top_queries (store : Store) (limit : Nat) :
    (top_queries store limit).length ≤ limit ∧
    List.Sorted (fun a b : Nat => b ≤ a) ((top_queries store limit).map Prod.snd) ∧
    (∀ p ∈ top_queries store limit, ∃ q : String,
      q ∈ store.chat_messages.map (fun m => m.user_message) ∧
      p.1 = (if 100 < q.data.length then String.mk (q.data.take 100) ++ "..." else q) ∧
      p.2 = (store.chat_messages.filter (fun m => m.user_message = q)).length) ∧
    (∀ q : String, q ∈ store.chat_messages.map (fun m => m.user_message) →
      ((if 100 < q.data.length then String.mk (q.data.take 100) ++ "..." else q),
        (store.chat_messages.filter (fun m => m.user_message = q)).length)
          ∈ top_queries store limit ∨
      ((top_queries store limit).length = limit ∧
        ∀ p ∈ top_queries store limit,
          (store.chat_messages.filter (fun m => m.user_message = q)).length ≤ p.2)) := by
  refine ⟨?_, ?_, ?_, ?_⟩
  · show (List.map _ (List.take limit _)).length ≤ limit
    rw [List.length_map, List.length_take]
    exact Nat.min_le_left _ _
  · show List.Sorted _ ((List.map _ (List.take limit _)).map Prod.snd)
    rw [List.map_map]
    have hp : List.Pairwise (fun a b : String × Nat => b.2 ≤ a.2)
        (List.take limit (sortByCountDesc
          (((store.chat_messages.map (fun m => m.user_message)).dedup).map
            (fun q => (q, (store.chat_messages.filter
              (fun m => m.user_message = q)).length))))) :=
      List.Pairwise.sublist (List.take_sublist limit _) (sorted_sortByCountDesc _)
    exact List.Pairwise.map _ (fun a b h => h) hp
  · intro p hp
    obtain ⟨p', hp', rfl⟩ := List.mem_map.mp hp
    have hp'' := List.take_subset _ _ hp'
    rw [mem_sortByCountDesc] at hp''
    obtain ⟨q, hq, rfl⟩ := List.mem_map.mp hp''
    exact ⟨q, List.mem_dedup.mp hq, rfl, rfl⟩
  · intro q hq
    have hs : (q, (store.chat_messages.filter (fun m => m.user_message = q)).length)
        ∈ sortByCountDesc (((store.chat_messages.map (fun m => m.user_message)).dedup).map
          (fun r => (r, (store.chat_messages.filter (fun m => m.user_message = r)).length))) :=
      (mem_sortByCountDesc _ _).mpr (List.mem_map.mpr ⟨q, List.mem_dedup.mpr hq, rfl⟩)
    rcases mem_take_or_le limit (sorted_sortByCountDesc _) hs with hmem | ⟨hlen, hle⟩
    · left
      exact List.mem_map.mpr ⟨_, hmem, rfl⟩
    · right
      constructor
      · show (List.map _ (List.take limit _)).length = limit
        rw [List.length_map, List.length_take]
        exact Nat.min_eq_left hlen
      · intro p hp
        obtain ⟨p', hp', rfl⟩ := List.mem_map.mp hp
        exact hle p' hp'

theorem c6_witness :
    (top_queries sampleStore 10).length ≤ 10 ∧
    List.Sorted (fun a b : Nat => b ≤ a) ((top_queries sampleStore 10).map Prod.snd) ∧
    (((if 100 < "check stock levels".data.length then
          String.mk ("check stock levels".data.take 100) ++ "..." else "check stock levels"),
        (sampleStore.chat_messages.filter
          (fun m => m.user_message = "check stock levels")).length)
          ∈ top_queries sampleStore 10 ∨
      ((top_queries sampleStore 10).length = 10 ∧
        ∀ p ∈ top_queries sampleStore 10,
          (sampleStore.chat_messages.filter
            (fun m => m.user_message = "check stock levels")).length ≤ p.2)) :=
  ⟨(c6_top_queries sampleStore 10).1, (c6_top_queries sampleStore 10).2.1,
   (c6_top_queries sampleStore 10).2.2.2 "check stock levels" (by decide)⟩

/-- Claim C7: daily_activity returns the calendar dates of the Message events
of the trailing 30 days in strictly ascending order, one entry per such date
with the count of in-window events of that date, a positive count, and no
date without an in-window event; every in-window event date appears. -/
theorem c7_daily_activity (store : Store) (now : Nat) :
    List.Sorted (· < ·) ((daily_activity store now).map Prod.fst) ∧
    (∀ p ∈ daily_activity store now,
      (∃ m, m ∈ store.chat_messages ∧ now - 30 * 86400 < m.timestamp ∧
        dateOf m.timestamp = p.1) ∧
      p.2 = ((store.chat_messages.filter (fun m => now - 30 * 86400 < m.timestamp)).filter
        (fun m => dateOf m.timestamp = p.1)).length ∧
      0 < p.2) ∧
    (∀ m ∈ store.chat_messages, now - 30 * 86400 < m.timestamp →
      dateOf m.timestamp ∈ (daily_activity store now).map Prod.fst) := by
  have hfst : (daily_activity store now).map Prod.fst
      = sortedDates ((store.chat_messages.filter
          (fun m => now - 30 * 86400 < m.timestamp)).map (fun m => dateOf m.timestamp)) := by
    show (List.map _ (sortedDates _)).map Prod.fst = _
    rw [List.map_map]
    exact List.map_id _
  refine ⟨?_, ?_, ?_⟩
  · rw [hfst]
    exact sorted_sortedDates _
  · intro p hp
    obtain ⟨d, hd, rfl⟩ := List.mem_map.mp hp
    rw [mem_sortedDates] at hd
    obtain ⟨m, hm, hdm⟩ := List.mem_map.mp hd
    have hm' := List.mem_filter.mp hm
    refine ⟨⟨m, hm'.1, by simpa using hm'.2, hdm⟩, rfl, ?_⟩
    have hmem : m ∈ (store.chat_messages.filter
        (fun m => now - 30 * 86400 < m.timestamp)).filter
        (fun m => dateOf m.timestamp = d) :=
      List.mem_filter.mpr ⟨hm, by simpa using hdm⟩
    exact List.length_pos.mpr (List.ne_nil_of_mem hmem)
  · intro m hm hw
    rw [hfst, mem_sortedDates]
    exact List.mem_map.mpr ⟨m, List.mem_filter.mpr ⟨hm, by simpa using hw⟩, rfl⟩

theorem c7_witness :
    dateOf (sampleMessage "s2" "show report" 1).timestamp
      ∈ (daily_activity sampleStore 10).map Prod.fst :=
  (c7_daily_activity sampleStore 10).2.2 _ (by decide) (by decide)

theorem dedup_length_le_of_subset {l₁ l₂ : List String} (h : l₁ ⊆ l₂) :
    l₁.dedup.length ≤ l₂.dedup.length := by
  apply List.Subperm.length_le
  apply List.subperm_of_subset (List.nodup_dedup l₁)
  intro a ha
  rw [List.mem_dedup] at ha
  rw [List.mem_dedup]
  exact h ha

/-- Claim C10: the four overview counters are mutually consistent: queries of
today and created requisitions never exceed the total query count, the active
session count never exceeds the number of distinct session ids among all
Message events, and all four counters are non-negative. -/
theorem c10_overview_consistent (store : Store) (now : Nat) :
    (analytics_overview store now).queries_today
      ≤ (analytics_overview store now).total_queries ∧
    (analytics_overview store now).total_requisitions
      ≤ (analytics_overview store now).total_queries ∧
    (analytics_overview store now).active_sessions
      ≤ ((store.chat_messages.map (fun m => m.session_id)).dedup).length ∧
    0 ≤ (analytics_overview store now).total_queries ∧
    0 ≤ (analytics_overview store now).queries_today ∧
    0 ≤ (analytics_overview store now).total_requisitions ∧
    0 ≤ (analytics_overview store now).active_sessions := by
  refine ⟨List.length_filter_le _ _, List.length_filter_le _ _, ?_,
    Nat.zero_le _, Nat.zero_le _, Nat.zero_le _, Nat.zero_le _⟩
  apply dedup_length_le_of_subset
  exact List.map_subset _ (fun a ha => (List.mem_filter.mp ha).1)

end StockSense
